import Mathlib

/-!
Shallow embedding of the AI-explanation enrichment pipeline
(lambdas/ai_explanation/handler.py) of the GenAI IAM governance repository.

Storage is modelled as a list of access-review rows; the SQL statements in
the handler (a SELECT of ai_risk_summary by review_id and an UPDATE of
ai_risk_summary by review_id) are embedded directly.  The storage helpers
living in the repository's common/repo module (not part of the given source)
are modelled from the spec's storage contract.  Python truthiness of the
optional values the handler branches on is modelled explicitly.
-/

namespace AIExplanation

/-- One row of the access_reviews table, with the columns the handler touches.
The column order of fetch_review_context is (id, user_id, role_id, user_name,
role_name, risk_level); ai_risk_summary is the nullable text column this
system writes. -/
structure Review where
  review_id : String
  user_id : String
  role_id : String
  user_name : String
  role_name : String
  risk_level : String
  ai_risk_summary : Option String
  deriving DecidableEq, Repr

/-- The access_reviews table: rows in storage order. -/
abbrev DB := List Review

/-- The user_context dict built by _build_context_from_db (and also suppliable
inline by the caller of the handler). -/
structure UserContext where
  user_id : String
  user_name : String
  department : String
  role : String
  deriving DecidableEq, Repr

/-- The policy_json dict built by _build_context_from_db (and also suppliable
inline). -/
structure PolicyJson where
  policy_arn : String
  policy_name : String
  deriving DecidableEq, Repr

/-- Result of one call of the text-generation backend
(client.models.generate_content): either the call raises, or it returns a
response whose text payload is missing (none) or a string. -/
inductive GenResult where
  | raises : GenResult
  | returns : Option String → GenResult
  deriving DecidableEq, Repr

/-- The backend as a function of the serialized contexts of the one
generation request the handler issues per review. -/
abbrev Backend := UserContext → PolicyJson → GenResult

/-- The distinct failure modes of generate_ai_summary: client not
initialized (RuntimeError), backend raised, empty GenAI response
(ValueError). -/
inductive GenError where
  | clientNotInitialized : GenError
  | backendRaised : GenError
  | emptyResponse : GenError
  deriving DecidableEq, Repr

/-- Python truthiness of an optional string: None and the empty string are
falsy, every other string is truthy. -/
def truthyOptStr : Option String → Bool
  | none => false
  | some s => s != ""

/-- Python str.strip(): drop whitespace from both ends of the string. -/
def pyStrip (s : String) : String :=
  ⟨((s.data.dropWhile Char.isWhitespace).reverse.dropWhile
      Char.isWhitespace).reverse⟩

/-- Embedding of generate_ai_summary: raise RuntimeError if the client is
unconfigured; raise ValueError if the response has no truthy text; otherwise
return the stripped response text. -/
def generate_ai_summary (client : Bool) (backend : Backend)
    (user_context : UserContext) (policy_json : PolicyJson) :
    Except GenError String :=
  if client = false then .error .clientNotInitialized
  else
    match backend user_context policy_json with
    | .raises => .error .backendRaised
    | .returns none => .error .emptyResponse
    | .returns (some s) =>
      if s == "" then .error .emptyResponse else .ok (pyStrip s)

/-- Embedding of _existing_ai_summary: SELECT ai_risk_summary FROM
access_reviews WHERE review_id matches, fetchone; return the column of the
first matching row, or None when there is no row. -/
def existing_ai_summary (db : DB) (review_id : String) : Option String :=
  match db.find? (fun r => r.review_id == review_id) with
  | none => none
  | some r => r.ai_risk_summary

/-- Modelled from the spec: repo.fetch_review_context (common/repo is not in
the given source).  Per the storage contract it returns
(id, subject_id, role_id, subject_name, role_name, risk_level) for the review
with the given id, or none when the review is absent. -/
def fetch_review_context (db : DB) (review_id : String) :
    Option (String × String × String × String × String × String) :=
  (db.find? (fun r => r.review_id == review_id)).map
    (fun r => (r.review_id, r.user_id, r.role_id, r.user_name, r.role_name,
               r.risk_level))

/-- Embedding of _build_context_from_db: fetch the review row; if absent
report none, else build the user_context (department is always the Unknown
sentinel) and policy_json projections together with the stored risk_level. -/
def build_context_from_db (db : DB) (review_id : String) :
    Option (UserContext × PolicyJson × String) :=
  match fetch_review_context db review_id with
  | none => none
  | some (_, user_id, role_id, user_name, role_name, risk_level) =>
    some ({ user_id := user_id, user_name := user_name,
            department := "Unknown", role := role_name },
          { policy_arn := role_id, policy_name := role_name },
          risk_level)

/-- Embedding of _persist_summary: UPDATE access_reviews SET
ai_risk_summary to the summary WHERE review_id matches; every matching row
is updated, all other rows are untouched. -/
def persist_summary (db : DB) (review_id : String) (summary : String) : DB :=
  db.map (fun r =>
    if r.review_id == review_id then { r with ai_risk_summary := some summary }
    else r)

/-- The fixed fallback sentence substituted on any generation failure. -/
def FALLBACK_SUMMARY : String :=
  "High-risk access detected based on policy and role mismatch. Manual review recommended."

/-- The per-review outcome dict: status SUCCESS, or SKIPPED/FAILED with a
reason code, always carrying the review_id. -/
inductive Outcome where
  | success : String → Outcome
  | skipped : String → String → Outcome
  | failed : String → String → Outcome
  deriving DecidableEq, Repr

/-- The review_id carried by an outcome. -/
def Outcome.rid : Outcome → String
  | .success r => r
  | .skipped r _ => r
  | .failed r _ => r

/-- Embedding of _process_single_review: already-enriched check (Python
truthiness of the stored summary), context resolution (inline contexts, when
both are supplied, short-circuit the storage lookup and leave risk_level at
the initial HIGH), risk gating, generation with fallback, persistence. -/
def process_single_review (client : Bool) (backend : Backend) (db : DB)
    (review_id : String) (user_context : Option UserContext)
    (policy_json : Option PolicyJson) : Outcome × DB :=
  if truthyOptStr (existing_ai_summary db review_id) then
    (.skipped review_id "already_present", db)
  else
    match (match user_context, policy_json with
           | some uc, some pj => some (uc, pj, "HIGH")
           | _, _ => build_context_from_db db review_id :
           Option (UserContext × PolicyJson × String)) with
    | none => (.failed review_id "not_found", db)
    | some (uc, pj, risk_level) =>
      if risk_level != "HIGH" then
        (.skipped review_id "non_high_risk", db)
      else
        let summary :=
          match generate_ai_summary client backend uc pj with
          | .ok s => s
          | .error _ => FALLBACK_SUMMARY
        (.success review_id, persist_summary db review_id summary)

/-- Modelled from the spec: repo.list_high_risk_reviews_missing_ai
(common/repo is not in the given source).  The storage-side discovery
filter: every review whose risk_level is HIGH and whose ai_risk_summary is
null, in storage order. -/
def list_high_risk_reviews_missing_ai (db : DB) : List Review :=
  db.filter (fun r => r.risk_level == "HIGH" && r.ai_risk_summary.isNone)

/-- The batch loop body: process each discovered review in discovery order
with no caller-supplied context, threading the storage state and collecting
the outcomes in order. -/
def batch_go (client : Bool) (backend : Backend) :
    List Review → DB → List Outcome × DB
  | [], db => ([], db)
  | r :: rs, db =>
    let step := process_single_review client backend db r.review_id none none
    let rest := batch_go client backend rs step.2
    (step.1 :: rest.1, rest.2)

/-- The batch mode of the handler: discover, then run the loop. -/
def handler_batch (client : Bool) (backend : Backend) (db : DB) :
    List Outcome × DB :=
  batch_go client backend (list_high_risk_reviews_missing_ai db) db

/-- The event payload of a handler invocation: an optional review_id and the
optional inline contexts. -/
structure Event where
  review_id : Option String
  user_context : Option UserContext
  policy_json : Option PolicyJson
  deriving DecidableEq, Repr

/-- The handler's return value: a single outcome dict, or the batch envelope
dict carrying a status string and the processed list. -/
inductive HandlerResult where
  | single : Outcome → HandlerResult
  | batch : String → List Outcome → HandlerResult
  deriving DecidableEq, Repr

/-- The handler body on the resolved event: a truthy review_id selects
single-review mode, otherwise batch mode with the envelope status fixed at
SUCCESS. -/
def handler_event (client : Bool) (backend : Backend) (ev : Event)
    (db : DB) : HandlerResult × DB :=
  if truthyOptStr ev.review_id then
    (HandlerResult.single
      (process_single_review client backend db (ev.review_id.getD "")
        ev.user_context ev.policy_json).1,
     (process_single_review client backend db (ev.review_id.getD "")
        ev.user_context ev.policy_json).2)
  else
    (HandlerResult.batch "SUCCESS" (handler_batch client backend db).1,
     (handler_batch client backend db).2)

/-- Embedding of handler: the event defaults to the empty dict, then the
mode is selected by the truthiness of its review_id. -/
def handler (client : Bool) (backend : Backend) (event : Option Event)
    (db : DB) : HandlerResult × DB :=
  handler_event client backend
    (event.getD { review_id := none, user_context := none,
                  policy_json := none }) db

/-- Persistence with an explicit write-failure oracle: when the oracle marks
the review_id, the UPDATE raises (a storage write error) instead of
completing.  Specialised to the never-failing oracle this is _persist_summary
again. -/
def persist_summaryE (failWrite : String → Bool) (db : DB)
    (review_id : String) (summary : String) : Except String DB :=
  if failWrite review_id then .error "persistence_failure"
  else .ok (persist_summary db review_id summary)

/-- _process_single_review with the write-failure oracle threaded through:
every path is as in process_single_review, but a raising UPDATE propagates
as an uncaught exception (the try/except around the handler covers only the
generation call). -/
def process_single_reviewE (failWrite : String → Bool) (client : Bool)
    (backend : Backend) (db : DB) (review_id : String)
    (user_context : Option UserContext) (policy_json : Option PolicyJson) :
    Except String (Outcome × DB) :=
  if truthyOptStr (existing_ai_summary db review_id) then
    .ok (.skipped review_id "already_present", db)
  else
    match (match user_context, policy_json with
           | some uc, some pj => some (uc, pj, "HIGH")
           | _, _ => build_context_from_db db review_id :
           Option (UserContext × PolicyJson × String)) with
    | none => .ok (.failed review_id "not_found", db)
    | some (uc, pj, risk_level) =>
      if risk_level != "HIGH" then
        .ok (.skipped review_id "non_high_risk", db)
      else
        let summary :=
          match generate_ai_summary client backend uc pj with
          | .ok s => s
          | .error _ => FALLBACK_SUMMARY
        match persist_summaryE failWrite db review_id summary with
        | .error e => .error e
        | .ok db2 => .ok (.success review_id, db2)

/-- The batch loop with the write-failure oracle: the loop body has no
exception handler, so a raising review aborts the remaining iterations and
the exception propagates out of the batch. -/
def batch_goE (failWrite : String → Bool) (client : Bool) (backend : Backend) :
    List Review → DB → Except String (List Outcome × DB)
  | [], db => .ok ([], db)
  | r :: rs, db =>
    match process_single_reviewE failWrite client backend db r.review_id
        none none with
    | .error e => .error e
    | .ok (o, db2) =>
      match batch_goE failWrite client backend rs db2 with
      | .error e => .error e
      | .ok (os, db3) => .ok (o :: os, db3)

/-- Batch mode with the write-failure oracle. -/
def handler_batchE (failWrite : String → Bool) (client : Bool)
    (backend : Backend) (db : DB) : Except String (List Outcome × DB) :=
  batch_goE failWrite client backend (list_high_risk_reviews_missing_ai db) db

/-- A sample review row used by concrete witnesses. -/
def mkReview (rid risk : String) (summ : Option String) : Review :=
  { review_id := rid, user_id := "U1", role_id := "ROLE1",
    user_name := "Alice", role_name := "Admin", risk_level := risk,
    ai_risk_summary := summ }

/-- A sample inline user context used by concrete witnesses. -/
def ucSample : UserContext :=
  { user_id := "U1", user_name := "Alice", department := "Security",
    role := "Admin" }

/-- A sample inline policy context used by concrete witnesses. -/
def pjSample : PolicyJson := { policy_arn := "ROLE1", policy_name := "Admin" }

/-- A backend whose every call raises. -/
def bkRaise : Backend := fun _ _ => .raises

/-- When the stored summary of the review is truthy, processing
short-circuits at the already-enriched check and leaves storage untouched. -/
lemma process_skips_of_truthy (client : Bool) (backend : Backend) (db : DB)
    (rid : String) (ouc : Option UserContext) (opj : Option PolicyJson)
    (h : truthyOptStr (existing_ai_summary db rid) = true) :
    process_single_review client backend db rid ouc opj =
      (.skipped rid "already_present", db) := by
  unfold process_single_review
  simp [h]

/-- The row update of persist_summary never changes review_id, so the lookup
of a review id over the updated table finds the updated image of the row the
lookup over the original table finds. -/
lemma find?_persist (db : DB) (rid rid2 s : String) :
    (persist_summary db rid2 s).find? (fun r => r.review_id == rid) =
      (db.find? (fun r => r.review_id == rid)).map
        (fun r => if r.review_id == rid2 then
            { r with ai_risk_summary := some s } else r) := by
  unfold persist_summary
  have hpred : ((fun r : Review => r.review_id == rid) ∘ fun r : Review =>
      if r.review_id == rid2 then { r with ai_risk_summary := some s }
      else r) = (fun r : Review => r.review_id == rid) := by
    funext r
    by_cases h : (r.review_id == rid2) = true <;> simp [Function.comp, h]
  rw [List.find?_map, hpred]

/-- After persisting a summary for a review id that is present, the stored
summary read back at that id is exactly the persisted summary. -/
lemma existing_after_persist (db : DB) (rid s : String)
    (h : (db.find? (fun r => r.review_id == rid)).isSome = true) :
    existing_ai_summary (persist_summary db rid s) rid = some s := by
  unfold existing_ai_summary
  rw [find?_persist]
  obtain ⟨r0, hr0⟩ := Option.isSome_iff_exists.mp h
  have hp : r0.review_id = rid := by simpa using List.find?_some hr0
  rw [hr0]
  simp [hp]

/-- Persisting a summary for one review id leaves the summary read back at
any other id unchanged. -/
lemma existing_persist_other (db : DB) (rid rid2 s : String)
    (h : rid ≠ rid2) :
    existing_ai_summary (persist_summary db rid2 s) rid =
      existing_ai_summary db rid := by
  unfold existing_ai_summary
  rw [find?_persist]
  cases hf : db.find? (fun r => r.review_id == rid) with
  | none => rfl
  | some r0 =>
    have hp : r0.review_id = rid := by
      simpa using List.find?_some hf
    have hpne : r0.review_id ≠ rid2 := by rw [hp]; exact h
    simp [hpne]

/-- Persisting a summary for a review id absent from storage changes
nothing: the UPDATE matches no row. -/
lemma persist_of_absent (db : DB) (rid s : String)
    (h : db.find? (fun r => r.review_id == rid) = none) :
    persist_summary db rid s = db := by
  unfold persist_summary
  rw [List.find?_eq_none] at h
  induction db with
  | nil => rfl
  | cons r rs ih =>
    have hr : ¬(r.review_id == rid) = true := h r (by simp)
    simp only [List.map_cons, if_neg hr]
    rw [ih (fun x hx => h x (by simp [hx]))]

/-- Every run of the orchestrator on one review ends in exactly one of the
three terminal shapes: a success that persisted some summary, a skip that
left storage untouched, or the not-found failure that left storage
untouched. -/
lemma process_cases (client : Bool) (backend : Backend) (db : DB)
    (rid : String) (ouc : Option UserContext) (opj : Option PolicyJson) :
    (∃ s, process_single_review client backend db rid ouc opj =
        (.success rid, persist_summary db rid s)) ∨
    (∃ reason, process_single_review client backend db rid ouc opj =
        (.skipped rid reason, db)) ∨
    process_single_review client backend db rid ouc opj =
      (.failed rid "not_found", db) := by
  unfold process_single_review
  split
  · exact Or.inr (Or.inl ⟨"already_present", rfl⟩)
  · split
    · exact Or.inr (Or.inr rfl)
    · split
      · exact Or.inr (Or.inl ⟨"non_high_risk", rfl⟩)
      · exact Or.inl ⟨_, rfl⟩

/-- Every outcome of the orchestrator carries the processed review id. -/
lemma process_rid (client : Bool) (backend : Backend) (db : DB)
    (rid : String) (ouc : Option UserContext) (opj : Option PolicyJson) :
    ((process_single_review client backend db rid ouc opj).1).rid = rid := by
  rcases process_cases client backend db rid ouc opj with
    ⟨s, hp⟩ | ⟨reason, hp⟩ | hp <;> rw [hp] <;> rfl

/-- The behaviour of the orchestrator on a review id absent from storage,
invoked without inline context: the not-found failure, with storage
untouched. -/
lemma process_absent (client : Bool) (backend : Backend) (db : DB)
    (rid : String)
    (h : db.find? (fun r => r.review_id == rid) = none) :
    process_single_review client backend db rid none none =
      (.failed rid "not_found", db) := by
  unfold process_single_review existing_ai_summary build_context_from_db
    fetch_review_context
  rw [h]
  simp [truthyOptStr]

/-- With inline contexts supplied and the already-enriched check passed, the
orchestrator always reaches the success leaf: the stored risk_level is never
read, the generated (or fallback) summary is persisted. -/
lemma process_inline_success (client : Bool) (backend : Backend) (db : DB)
    (rid : String) (uc : UserContext) (pj : PolicyJson)
    (h : truthyOptStr (existing_ai_summary db rid) = false) :
    process_single_review client backend db rid (some uc) (some pj) =
      (.success rid, persist_summary db rid
        (match generate_ai_summary client backend uc pj with
         | .ok s => s
         | .error _ => FALLBACK_SUMMARY)) := by
  unfold process_single_review
  simp [h]

/-- With the never-failing write oracle, the exception-aware orchestrator is
the plain orchestrator wrapped in ok: no code path other than the storage
write can raise past the generation try/except. -/
lemma processE_no_write_failure (client : Bool) (backend : Backend)
    (db : DB) (rid : String) (ouc : Option UserContext)
    (opj : Option PolicyJson) :
    process_single_reviewE (fun _ => false) client backend db rid ouc opj =
      .ok (process_single_review client backend db rid ouc opj) := by
  unfold process_single_reviewE process_single_review persist_summaryE
  split
  · rfl
  · split
    · rfl
    · split
      · rfl
      · rfl

/-- With the never-failing write oracle the batch loop never raises. -/
lemma batch_goE_no_write_failure (client : Bool) (backend : Backend)
    (rs : List Review) (db : DB) :
    batch_goE (fun _ => false) client backend rs db =
      .ok (batch_go client backend rs db) := by
  induction rs generalizing db with
  | nil => rfl
  | cons r rest ih =>
    unfold batch_goE batch_go
    simp [processE_no_write_failure, ih]

/-- Processing any review id leaves the stored summary read back at a review
id that is already truthy unchanged. -/
lemma process_preserves_truthy (client : Bool) (backend : Backend) (db : DB)
    (rid rid2 : String) (ouc : Option UserContext) (opj : Option PolicyJson)
    (h : truthyOptStr (existing_ai_summary db rid) = true) :
    existing_ai_summary
        (process_single_review client backend db rid2 ouc opj).2 rid =
      existing_ai_summary db rid := by
  by_cases he : rid2 = rid
  · subst he
    rw [process_skips_of_truthy client backend db rid2 ouc opj h]
  · rcases process_cases client backend db rid2 ouc opj with
      ⟨s, hp⟩ | ⟨reason, hp⟩ | hp
    · rw [hp]
      exact existing_persist_other db rid rid2 s (fun heq => he heq.symm)
    · rw [hp]
    · rw [hp]

/-- The batch loop never changes the stored summary read back at a review id
that is already truthy. -/
lemma batch_go_preserves_truthy (client : Bool) (backend : Backend)
    (rs : List Review) (db : DB) (rid : String)
    (h : truthyOptStr (existing_ai_summary db rid) = true) :
    existing_ai_summary (batch_go client backend rs db).2 rid =
      existing_ai_summary db rid := by
  induction rs generalizing db with
  | nil => rfl
  | cons r rest ih =>
    have hstep := process_preserves_truthy client backend db rid r.review_id
      none none h
    have h2 : truthyOptStr (existing_ai_summary
        (process_single_review client backend db r.review_id none none).2
        rid) = true := by
      rw [hstep]; exact h
    unfold batch_go
    dsimp only
    rw [ih _ h2, hstep]

/-- The outcomes of the batch loop carry exactly the review ids of the
processed rows, in order. -/
lemma batch_go_rids (client : Bool) (backend : Backend) (rs : List Review)
    (db : DB) :
    (batch_go client backend rs db).1.map Outcome.rid =
      rs.map Review.review_id := by
  induction rs generalizing db with
  | nil => rfl
  | cons r rest ih =>
    unfold batch_go
    dsimp only
    rw [List.map_cons, List.map_cons, process_rid, ih]

/-- If the first single-review call returned SUCCESS without inline context,
the review row was found in storage. -/
lemma process_success_found (client : Bool) (backend : Backend) (db : DB)
    (rid : String) (db2 : DB)
    (h : process_single_review client backend db rid none none =
      (.success rid, db2)) :
    (db.find? (fun r => r.review_id == rid)).isSome = true := by
  by_cases hf : (db.find? (fun r => r.review_id == rid)).isSome = true
  · exact hf
  · have hnone : db.find? (fun r => r.review_id == rid) = none := by
      cases hc : db.find? (fun r => r.review_id == rid) with
      | none => rfl
      | some r => rw [hc] at hf; simp at hf
    rw [process_absent client backend db rid hnone] at h
    simp at h

/-- C1 counterexample: the idempotence claim as stated fails.  With a review
present in storage (risk HIGH, summary null) and a backend whose text payload
is the single blank " " (truthy in Python, empty after strip), the first call
returns SUCCESS and stores the empty string; the second call does not skip
with already_present, because the empty stored summary is falsy at the
already-enriched check, and instead returns SUCCESS again. -/
theorem spec_c1_counterexample :
    (process_single_review true (fun _ _ => GenResult.returns (some " "))
        [mkReview "R1" "HIGH" none] "R1" none none).1 =
      Outcome.success "R1" ∧
    existing_ai_summary
        (process_single_review true (fun _ _ => GenResult.returns (some " "))
          [mkReview "R1" "HIGH" none] "R1" none none).2 "R1" = some "" ∧
    (process_single_review true (fun _ _ => GenResult.returns (some " "))
        (process_single_review true (fun _ _ => GenResult.returns (some " "))
          [mkReview "R1" "HIGH" none] "R1" none none).2 "R1" none none).1 ≠
      Outcome.skipped "R1" "already_present" := by
  refine ⟨rfl, rfl, ?_⟩
  decide

/-- C1 (amended): idempotence of enrichment holds whenever the summary the
first SUCCESS call stored is not the empty string: the second call then
returns SKIPPED(already_present), leaves storage untouched, and the stored
summary after the second call equals the summary stored after the first. -/
theorem spec_c1_enrichment_idempotent (client : Bool) (backend : Backend)
    (db db2 : DB) (rid : String)
    (h1 : process_single_review client backend db rid none none =
      (.success rid, db2))
    (hne : existing_ai_summary db2 rid ≠ some "") :
    process_single_review client backend db2 rid none none =
      (.skipped rid "already_present", db2) ∧
    existing_ai_summary
        (process_single_review client backend db2 rid none none).2 rid =
      existing_ai_summary db2 rid := by
  have hfind := process_success_found client backend db rid db2 h1
  obtain ⟨s, hs⟩ | ⟨reason, hs⟩ | hs :=
    process_cases client backend db rid none none
  · rw [h1] at hs
    have hdb2 : db2 = persist_summary db rid s := congrArg Prod.snd hs
    have hex : existing_ai_summary db2 rid = some s := by
      rw [hdb2]; exact existing_after_persist db rid s hfind
    have hsne : s ≠ "" := by
      intro h0
      exact hne (by rw [hex, h0])
    have htr : truthyOptStr (existing_ai_summary db2 rid) = true := by
      rw [hex]
      simp [truthyOptStr, hsne]
    have hskip := process_skips_of_truthy client backend db2 rid none none htr
    exact ⟨hskip, by rw [hskip]⟩
  · rw [hs] at h1
    simp at h1
  · rw [hs] at h1
    simp at h1

/-- C1 witness: a HIGH review with no summary and an unconfigured client is
enriched with the fallback on the first call and skipped on the second. -/
theorem spec_c1_enrichment_idempotent_witness :
    process_single_review false bkRaise
        (process_single_review false bkRaise [mkReview "R1" "HIGH" none]
          "R1" none none).2 "R1" none none =
      (Outcome.skipped "R1" "already_present",
       (process_single_review false bkRaise [mkReview "R1" "HIGH" none]
         "R1" none none).2) ∧
    existing_ai_summary
        (process_single_review false bkRaise
          (process_single_review false bkRaise [mkReview "R1" "HIGH" none]
            "R1" none none).2 "R1" none none).2 "R1" =
      existing_ai_summary
        (process_single_review false bkRaise [mkReview "R1" "HIGH" none]
          "R1" none none).2 "R1" :=
  spec_c1_enrichment_idempotent false bkRaise [mkReview "R1" "HIGH" none]
    (process_single_review false bkRaise [mkReview "R1" "HIGH" none]
      "R1" none none).2 "R1" rfl (by decide)

/-- C2 counterexample: the write-once claim as stated fails.  A review whose
ai_risk_summary is the non-null empty string is not skipped at the
already-enriched check (the empty string is falsy): the orchestrator runs to
SUCCESS and overwrites the stored summary with the fallback sentence. -/
theorem spec_c2_counterexample :
    existing_ai_summary [mkReview "R1" "HIGH" (some "")] "R1" = some "" ∧
    (process_single_review false bkRaise [mkReview "R1" "HIGH" (some "")]
        "R1" none none).1 ≠ Outcome.skipped "R1" "already_present" ∧
    existing_ai_summary
        (process_single_review false bkRaise [mkReview "R1" "HIGH" (some "")]
          "R1" none none).2 "R1" ≠ some "" := by
  refine ⟨rfl, ?_, ?_⟩ <;> decide

/-- C2 (amended): write-once holds for every review whose stored summary is
non-null and non-empty: processing that review terminates at the
already-enriched check with SKIPPED(already_present) and no storage write,
and no handler invocation (single-review or batch, any client, any backend)
ever changes the summary read back at that review id. -/
theorem spec_c2_write_once (client : Bool) (backend : Backend) (db : DB)
    (rid s : String) (ouc : Option UserContext) (opj : Option PolicyJson)
    (ev : Option Event)
    (h : existing_ai_summary db rid = some s) (hs : s ≠ "") :
    process_single_review client backend db rid ouc opj =
      (.skipped rid "already_present", db) ∧
    existing_ai_summary (handler client backend ev db).2 rid = some s := by
  have htr : truthyOptStr (existing_ai_summary db rid) = true := by
    rw [h]
    simp [truthyOptStr, hs]
  refine ⟨process_skips_of_truthy client backend db rid ouc opj htr, ?_⟩
  unfold handler handler_event
  split
  · dsimp only
    rw [process_preserves_truthy client backend db rid _ _ _ htr, h]
  · dsimp only
    unfold handler_batch
    rw [batch_go_preserves_truthy client backend _ db rid htr, h]

/-- C2 witness: an already-enriched review is skipped and its summary
survives a batch invocation of the handler. -/
theorem spec_c2_write_once_witness :
    process_single_review true bkRaise
        [mkReview "R3" "HIGH" (some "already there")] "R3" none none =
      (Outcome.skipped "R3" "already_present",
       [mkReview "R3" "HIGH" (some "already there")]) ∧
    existing_ai_summary
        (handler true bkRaise none
          [mkReview "R3" "HIGH" (some "already there")]).2 "R3" =
      some "already there" :=
  spec_c2_write_once true bkRaise [mkReview "R3" "HIGH" (some "already there")]
    "R3" "already there" none none none rfl (by decide)

/-- C3: fallback guarantee.  For a review present in storage with risk HIGH
and a null summary, if the client is unconfigured or every backend call
raises, processing (with or without inline context) ends in SUCCESS and the
fixed fallback sentence is stored verbatim as the review's ai_risk_summary. -/
theorem spec_c3_fallback_guarantee (client : Bool) (backend : Backend)
    (db : DB) (rid : String) (r : Review)
    (ouc : Option UserContext) (opj : Option PolicyJson)
    (hfind : db.find? (fun x => x.review_id == rid) = some r)
    (hnull : r.ai_risk_summary = none)
    (hhigh : r.risk_level = "HIGH")
    (hfail : client = false ∨ ∀ uc pj, backend uc pj = .raises) :
    process_single_review client backend db rid ouc opj =
      (.success rid, persist_summary db rid FALLBACK_SUMMARY) ∧
    existing_ai_summary
        (process_single_review client backend db rid ouc opj).2 rid =
      some FALLBACK_SUMMARY := by
  have hex : existing_ai_summary db rid = none := by
    unfold existing_ai_summary
    rw [hfind]
    exact hnull
  have hgen : ∀ uc pj, (match generate_ai_summary client backend uc pj with
      | .ok s => s
      | .error _ => FALLBACK_SUMMARY) = FALLBACK_SUMMARY := by
    intro uc pj
    rcases hfail with hc | hb
    · subst hc
      rfl
    · unfold generate_ai_summary
      rw [hb uc pj]
      cases client <;> rfl
  have hbuild : build_context_from_db db rid =
      some ({ user_id := r.user_id, user_name := r.user_name,
              department := "Unknown", role := r.role_name },
            { policy_arn := r.role_id, policy_name := r.role_name },
            "HIGH") := by
    unfold build_context_from_db fetch_review_context
    rw [hfind]
    dsimp only [Option.map_some']
    rw [hhigh]
  have hmain : process_single_review client backend db rid ouc opj =
      (.success rid, persist_summary db rid FALLBACK_SUMMARY) := by
    unfold process_single_review
    rw [hex]
    cases ouc with
    | some uc =>
      cases opj with
      | some pj =>
        simp only [truthyOptStr, Bool.false_eq_true, if_false]
        rw [hgen uc pj]
        rfl
      | none =>
        simp only [truthyOptStr, Bool.false_eq_true, if_false, hbuild]
        rw [hgen _ _]
        rfl
    | none =>
      cases opj <;>
        simp only [truthyOptStr, Bool.false_eq_true, if_false, hbuild] <;>
        rw [hgen _ _] <;> rfl
  refine ⟨hmain, ?_⟩
  rw [hmain]
  exact existing_after_persist db rid FALLBACK_SUMMARY (by rw [hfind]; rfl)

/-- C3 witness: an unconfigured client still enriches a HIGH review with the
fallback sentence. -/
theorem spec_c3_fallback_guarantee_witness :
    process_single_review false bkRaise [mkReview "R1" "HIGH" none] "R1"
        none none =
      (Outcome.success "R1",
       persist_summary [mkReview "R1" "HIGH" none] "R1" FALLBACK_SUMMARY) ∧
    existing_ai_summary
        (process_single_review false bkRaise [mkReview "R1" "HIGH" none]
          "R1" none none).2 "R1" =
      some FALLBACK_SUMMARY :=
  spec_c3_fallback_guarantee false bkRaise [mkReview "R1" "HIGH" none] "R1"
    (mkReview "R1" "HIGH" none) none none rfl rfl rfl (Or.inl rfl)

/-- C4 counterexample: the risk-gating claim as stated fails.  A LOW-risk
review processed with both inline contexts supplied bypasses the gate (risk
is taken as HIGH by construction): the outcome is SUCCESS, not
SKIPPED(non_high_risk), and its ai_risk_summary does not remain null; and a
LOW-risk review that is already enriched is skipped with reason
already_present, not non_high_risk. -/
theorem spec_c4_counterexample :
    (process_single_review false bkRaise [mkReview "R2" "LOW" none] "R2"
        (some ucSample) (some pjSample)).1 ≠
      Outcome.skipped "R2" "non_high_risk" ∧
    existing_ai_summary
        (process_single_review false bkRaise [mkReview "R2" "LOW" none]
          "R2" (some ucSample) (some pjSample)).2 "R2" ≠ none ∧
    (process_single_review false bkRaise
        [mkReview "R2" "LOW" (some "old note")] "R2" none none).1 ≠
      Outcome.skipped "R2" "non_high_risk" := by
  refine ⟨?_, ?_, ?_⟩ <;> decide

/-- C4 (amended): risk gating holds for the storage-resolved risk level.
For any review present in storage with a null summary and a risk_level
other than HIGH, processing it without both inline contexts supplied
always yields SKIPPED(non_high_risk) and leaves storage unchanged, so the
summary remains null; the conclusion holds for every client and backend, so
no generation call influences it. -/
theorem spec_c4_risk_gating (client : Bool) (backend : Backend) (db : DB)
    (rid : String) (r : Review)
    (ouc : Option UserContext) (opj : Option PolicyJson)
    (hfind : db.find? (fun x => x.review_id == rid) = some r)
    (hnull : r.ai_risk_summary = none)
    (hlow : r.risk_level ≠ "HIGH")
    (hnoinline : ouc = none ∨ opj = none) :
    process_single_review client backend db rid ouc opj =
      (.skipped rid "non_high_risk", db) ∧
    existing_ai_summary db rid = none := by
  have hex : existing_ai_summary db rid = none := by
    unfold existing_ai_summary
    rw [hfind]
    exact hnull
  have hbuild : build_context_from_db db rid =
      some ({ user_id := r.user_id, user_name := r.user_name,
              department := "Unknown", role := r.role_name },
            { policy_arn := r.role_id, policy_name := r.role_name },
            r.risk_level) := by
    unfold build_context_from_db fetch_review_context
    rw [hfind]
    rfl
  have hgate : (r.risk_level != "HIGH") = true := by
    simp [hlow]
  refine ⟨?_, hex⟩
  unfold process_single_review
  rw [hex]
  cases ouc with
  | some uc =>
    cases opj with
    | some pj =>
      rcases hnoinline with h0 | h0 <;> simp at h0
    | none =>
      simp only [truthyOptStr, Bool.false_eq_true, if_false, hbuild]
      rw [if_pos hgate]
  | none =>
    cases opj <;>
      simp only [truthyOptStr, Bool.false_eq_true, if_false, hbuild] <;>
      rw [if_pos hgate]

/-- C4 witness: a LOW review with no inline context is skipped as
non-high-risk and its summary stays null. -/
theorem spec_c4_risk_gating_witness :
    process_single_review true bkRaise [mkReview "R2" "LOW" none] "R2"
        none none =
      (Outcome.skipped "R2" "non_high_risk", [mkReview "R2" "LOW" none]) ∧
    existing_ai_summary [mkReview "R2" "LOW" none] "R2" = none :=
  spec_c4_risk_gating true bkRaise [mkReview "R2" "LOW" none] "R2"
    (mkReview "R2" "LOW" none) none none rfl rfl (by decide) (Or.inl rfl)

/-- C5: not-found failure.  For any review id absent from storage, a
single-review invocation with no inline context yields FAILED(not_found)
and leaves storage unchanged; the conclusion holds for every client and
backend, so no generation call occurs, and the returned table equals the
input table, so no storage write occurs. -/
theorem spec_c5_not_found (client : Bool) (backend : Backend) (db : DB)
    (rid : String)
    (habs : db.find? (fun r => r.review_id == rid) = none) :
    process_single_review client backend db rid none none =
      (.failed rid "not_found", db) :=
  process_absent client backend db rid habs

/-- C5 witness: an id not in the table fails with not_found. -/
theorem spec_c5_not_found_witness :
    process_single_review true bkRaise [mkReview "R1" "HIGH" none] "R4"
        none none =
      (Outcome.failed "R4" "not_found", [mkReview "R1" "HIGH" none]) :=
  spec_c5_not_found true bkRaise [mkReview "R1" "HIGH" none] "R4" rfl

/-- C6: the batch loop has no per-review exception handler, so a storage
write error in one discovered review aborts the whole batch.  With two
discovered HIGH-risk reviews and a write oracle that raises for the first,
the batch propagates the exception: no FAILED outcome is recorded for the
first review and the second review is never processed — while with a
healthy oracle the same batch completes with two outcomes.  This contradicts
the claim that a single review's exception yields a FAILED outcome for that
review only and processing continues. -/
theorem spec_c6_batch_abort :
    handler_batchE (fun rid => rid == "R1") false bkRaise
        [mkReview "R1" "HIGH" none, mkReview "R2" "HIGH" none] =
      .error "persistence_failure" ∧
    handler_batchE (fun _ => false) false bkRaise
        [mkReview "R1" "HIGH" none, mkReview "R2" "HIGH" none] =
      .ok ([Outcome.success "R1", Outcome.success "R2"],
           [mkReview "R1" "HIGH" (some FALLBACK_SUMMARY),
            mkReview "R2" "HIGH" (some FALLBACK_SUMMARY)]) := by
  exact ⟨rfl, rfl⟩

/-- C7 counterexample: the claim that generate_ai_summary otherwise returns
the backend's text fails: a payload with surrounding whitespace is returned
stripped, not verbatim. -/
theorem spec_c7_counterexample :
    generate_ai_summary true (fun _ _ => GenResult.returns (some " x "))
        ucSample pjSample = .ok "x" ∧
    (" x " : String) ≠ "x" := by
  exact ⟨rfl, by decide⟩

/-- C7 (amended): generate_ai_summary fails exactly in three distinct
cases — the client is unconfigured, the backend call raises, or the backend
text payload is missing or empty — and otherwise returns the backend's text
stripped of surrounding whitespace; and with a healthy storage write every
failure is caught by the orchestrator, which never returns an error. -/
theorem spec_c7_generator_failure_modes (client : Bool) (backend : Backend)
    (uc : UserContext) (pj : PolicyJson) :
    (generate_ai_summary client backend uc pj =
        .error .clientNotInitialized ↔ client = false) ∧
    (generate_ai_summary client backend uc pj = .error .backendRaised ↔
      (client = true ∧ backend uc pj = .raises)) ∧
    (generate_ai_summary client backend uc pj = .error .emptyResponse ↔
      (client = true ∧ (backend uc pj = .returns none ∨
        backend uc pj = .returns (some "")))) ∧
    (∀ s, client = true → backend uc pj = .returns (some s) → s ≠ "" →
      generate_ai_summary client backend uc pj = .ok (pyStrip s)) ∧
    (∀ db rid ouc opj, (process_single_reviewE (fun _ => false) client
        backend db rid ouc opj).isOk = true) ∧
    (∀ db, (handler_batchE (fun _ => false) client backend db).isOk
        = true) := by
  refine ⟨?_, ?_, ?_, ?_, ?_, ?_⟩
  · unfold generate_ai_summary
    cases client
    · simp
    · simp only [Bool.true_eq_false, if_false]
      cases hb : backend uc pj with
      | raises => simp
      | returns t =>
        cases t with
        | none => simp
        | some s =>
          by_cases hse : (s == "") = true <;> simp [hse]
  · unfold generate_ai_summary
    cases client
    · simp
    · simp only [Bool.true_eq_false, if_false]
      cases hb : backend uc pj with
      | raises => simp
      | returns t =>
        cases t with
        | none => simp
        | some s =>
          by_cases hse : (s == "") = true <;> simp [hse]
  · unfold generate_ai_summary
    cases client
    · simp
    · simp only [Bool.true_eq_false, if_false]
      cases hb : backend uc pj with
      | raises => simp
      | returns t =>
        cases t with
        | none => simp
        | some s =>
          by_cases hse : (s == "") = true
          · have : s = "" := by simpa using hse
            simp [hse, this]
          · have : s ≠ "" := by simpa using hse
            simp [hse, this]
  · intro s hc hb hse
    subst hc
    unfold generate_ai_summary
    rw [hb]
    simp [hse]
  · intro db rid ouc opj
    rw [processE_no_write_failure]
    rfl
  · intro db
    unfold handler_batchE
    rw [batch_goE_no_write_failure]
    rfl

/-- C7 witness: with a configured client and a backend returning a clean
text payload, the generator succeeds with that text. -/
theorem spec_c7_generator_failure_modes_witness :
    generate_ai_summary true
        (fun _ _ => GenResult.returns (some "Review this role."))
        ucSample pjSample = .ok (pyStrip "Review this role.") ∧
    generate_ai_summary false bkRaise ucSample pjSample =
      .error .clientNotInitialized := by
  have h1 := spec_c7_generator_failure_modes true
    (fun _ _ => GenResult.returns (some "Review this role.")) ucSample pjSample
  have h2 := spec_c7_generator_failure_modes false bkRaise ucSample pjSample
  exact ⟨h1.2.2.2.1 "Review this role." rfl rfl (by decide), h2.1.mpr rfl⟩

/-- C8: batch mode contract.  For any event whose review_id is not truthy
(absent, or the falsy empty string), the handler returns the SUCCESS
envelope around the batch outcomes; the outcome list carries exactly one
outcome per review discovered by the storage-side HIGH-and-null filter, in
discovery order, each labelled with that review's id (the loop hands every
discovered id to the orchestrator with no caller-supplied context). -/
theorem spec_c8_batch_contract (client : Bool) (backend : Backend) (db : DB)
    (ev : Event) (hev : truthyOptStr ev.review_id = false) :
    handler client backend (some ev) db =
      (HandlerResult.batch "SUCCESS" (handler_batch client backend db).1,
       (handler_batch client backend db).2) ∧
    (handler_batch client backend db).1.map Outcome.rid =
      (list_high_risk_reviews_missing_ai db).map Review.review_id ∧
    (handler_batch client backend db).1.length =
      (list_high_risk_reviews_missing_ai db).length := by
  refine ⟨?_, ?_, ?_⟩
  · unfold handler handler_event
    simp [hev]
  · exact batch_go_rids client backend (list_high_risk_reviews_missing_ai db) db
  · have h := batch_go_rids client backend
      (list_high_risk_reviews_missing_ai db) db
    have := congrArg List.length h
    simpa [List.length_map] using this

/-- C8 witness: Scenario E — a batch over reviews R1 HIGH/null, R2 LOW/null
and R5 HIGH/null returns the SUCCESS envelope with outcomes for R1 and R5
only, in that order. -/
theorem spec_c8_batch_contract_witness :
    handler false bkRaise
        (some { review_id := none, user_context := none,
                policy_json := none })
        [mkReview "R1" "HIGH" none, mkReview "R2" "LOW" none,
         mkReview "R5" "HIGH" none] =
      (HandlerResult.batch "SUCCESS"
        (handler_batch false bkRaise
          [mkReview "R1" "HIGH" none, mkReview "R2" "LOW" none,
           mkReview "R5" "HIGH" none]).1,
       (handler_batch false bkRaise
          [mkReview "R1" "HIGH" none, mkReview "R2" "LOW" none,
           mkReview "R5" "HIGH" none]).2) ∧
    (handler_batch false bkRaise
        [mkReview "R1" "HIGH" none, mkReview "R2" "LOW" none,
         mkReview "R5" "HIGH" none]).1.map Outcome.rid = ["R1", "R5"] := by
  have h := spec_c8_batch_contract false bkRaise
    [mkReview "R1" "HIGH" none, mkReview "R2" "LOW" none,
     mkReview "R5" "HIGH" none]
    { review_id := none, user_context := none, policy_json := none } rfl
  refine ⟨h.1, ?_⟩
  rw [h.2.1]
  rfl

/-- C9: persistence frame.  The UPDATE of _persist_summary preserves the
table length, and on every row it changes at most the ai_risk_summary
column: all other columns (in particular risk_level) are unchanged, rows
whose review_id differs from the one being processed are unchanged
entirely, and the matching row becomes the same row with its summary set. -/
theorem spec_c9_persistence_frame (db : DB) (rid s : String) (i : Nat)
    (r r2 : Review)
    (h1 : db[i]? = some r)
    (h2 : (persist_summary db rid s)[i]? = some r2) :
    (persist_summary db rid s).length = db.length ∧
    r2.review_id = r.review_id ∧ r2.user_id = r.user_id ∧
    r2.role_id = r.role_id ∧ r2.user_name = r.user_name ∧
    r2.role_name = r.role_name ∧ r2.risk_level = r.risk_level ∧
    (r.review_id ≠ rid → r2 = r) ∧
    (r.review_id = rid → r2 = { r with ai_risk_summary := some s }) := by
  have hlen : (persist_summary db rid s).length = db.length := by
    unfold persist_summary
    exact List.length_map db _
  have hmap : (persist_summary db rid s)[i]? = (db[i]?).map
      (fun x => if x.review_id == rid then
          { x with ai_risk_summary := some s } else x) := by
    unfold persist_summary
    exact List.getElem?_map _ db i
  rw [h1] at hmap
  rw [hmap] at h2
  have hr2 : r2 = (if r.review_id == rid then
      { r with ai_risk_summary := some s } else r) :=
    (Option.some.inj h2).symm
  by_cases hr : r.review_id = rid
  · subst hr2
    refine ⟨hlen, ?_⟩
    simp [hr]
  · subst hr2
    refine ⟨hlen, ?_⟩
    simp [hr]

/-- C9 witness: updating R1 in a two-row table leaves the R2 row (index 1)
entirely unchanged. -/
theorem spec_c9_persistence_frame_witness :
    (persist_summary [mkReview "R1" "HIGH" none,
        mkReview "R2" "LOW" (some "x")] "R1" "new").length =
      ([mkReview "R1" "HIGH" none, mkReview "R2" "LOW" (some "x")] :
        DB).length ∧
    (mkReview "R2" "LOW" (some "x")).review_id =
      (mkReview "R2" "LOW" (some "x")).review_id ∧
    (mkReview "R2" "LOW" (some "x")).user_id =
      (mkReview "R2" "LOW" (some "x")).user_id ∧
    (mkReview "R2" "LOW" (some "x")).role_id =
      (mkReview "R2" "LOW" (some "x")).role_id ∧
    (mkReview "R2" "LOW" (some "x")).user_name =
      (mkReview "R2" "LOW" (some "x")).user_name ∧
    (mkReview "R2" "LOW" (some "x")).role_name =
      (mkReview "R2" "LOW" (some "x")).role_name ∧
    (mkReview "R2" "LOW" (some "x")).risk_level =
      (mkReview "R2" "LOW" (some "x")).risk_level ∧
    ((mkReview "R2" "LOW" (some "x")).review_id ≠ "R1" →
      mkReview "R2" "LOW" (some "x") = mkReview "R2" "LOW" (some "x")) ∧
    ((mkReview "R2" "LOW" (some "x")).review_id = "R1" →
      mkReview "R2" "LOW" (some "x") =
        { mkReview "R2" "LOW" (some "x") with ai_risk_summary := some "new" }) :=
  spec_c9_persistence_frame
    [mkReview "R1" "HIGH" none, mkReview "R2" "LOW" (some "x")] "R1" "new" 1
    (mkReview "R2" "LOW" (some "x")) (mkReview "R2" "LOW" (some "x")) rfl rfl

/-- C10 (implicit): with both inline contexts supplied, the orchestrator
never reads the stored risk_level — once past the already-enriched check the
outcome is SUCCESS for every storage state, client and backend; in
particular, for a review_id absent from storage the call still returns
SUCCESS while the persistence UPDATE matches no row, leaving the storage
state unchanged. -/
theorem spec_c10_inline_bypass (client : Bool) (backend : Backend) (db : DB)
    (rid : String) (uc : UserContext) (pj : PolicyJson)
    (habs : db.find? (fun r => r.review_id == rid) = none) :
    process_single_review client backend db rid (some uc) (some pj) =
      (.success rid, db) ∧
    (∀ dbA : DB, ∀ ridA : String,
      truthyOptStr (existing_ai_summary dbA ridA) = false →
      (process_single_review client backend dbA ridA
          (some uc) (some pj)).1 = .success ridA) := by
  have hex : existing_ai_summary db rid = none := by
    unfold existing_ai_summary
    rw [habs]
  have htr : truthyOptStr (existing_ai_summary db rid) = false := by
    rw [hex]
    rfl
  refine ⟨?_, ?_⟩
  · rw [process_inline_success client backend db rid uc pj htr,
      persist_of_absent db rid _ habs]
  · intro dbA ridA hA
    rw [process_inline_success client backend dbA ridA uc pj hA]

/-- C10 witness: a single-review call with inline contexts for an id absent
from a one-row table returns SUCCESS and leaves the table unchanged. -/
theorem spec_c10_inline_bypass_witness :
    process_single_review false bkRaise [mkReview "R1" "LOW" none] "R9"
        (some ucSample) (some pjSample) =
      (Outcome.success "R9", [mkReview "R1" "LOW" none]) ∧
    (∀ dbA : DB, ∀ ridA : String,
      truthyOptStr (existing_ai_summary dbA ridA) = false →
      (process_single_review false bkRaise dbA ridA
          (some ucSample) (some pjSample)).1 = .success ridA) :=
  spec_c10_inline_bypass false bkRaise [mkReview "R1" "LOW" none] "R9"
    ucSample pjSample rfl

end AIExplanation
